import Mathlib

/-!
Verification of the Customer REST service (`service/models.py`,
`service/routes.py`) against its natural-language specification.

The Python source is shallowly embedded: the `Customer` row becomes a Lean
structure, the SQLAlchemy store becomes an explicit list of rows with a
next-id counter, each Flask handler becomes a pure function from its inputs
and the store to a (status, body, store) result, and the `re.match` calls
of the validators become an executable matcher for the specific character
class / Kleene star patterns the source uses.
-/

/-- A JSON value as it occurs in request payloads and serialized responses
(strings, integers, booleans, or null). -/
inductive JVal where
  | str (s : String)
  | int (n : Int)
  | bool (b : Bool)
  | null
  deriving Repr, DecidableEq

/-- The `Customer` row (`service/models.py`).  The table schema declares
`id, first_name, last_name, address, phone_number, email`.  Field values are
`JVal` because the Python attributes are dynamically typed (strings or None
in practice).

The `suspended` field is modelled from the spec: `models.py` declares no
`suspended` column, but `routes.py` reads and writes `customer.suspended`
(a plain Python instance attribute) and the tests construct customers with
it; the spec says `suspended` is a boolean defaulting to `false`. -/
structure Customer where
  id : Option Nat
  first_name : JVal
  last_name : JVal
  email : JVal
  phone_number : JVal
  address : JVal
  suspended : Bool
  deriving Repr, DecidableEq

/-- `Customer()` in Python: a fresh object with no column values set
(and, per the spec model, not suspended). -/
def Customer.empty : Customer :=
  { id := none, first_name := JVal.null, last_name := JVal.null,
    email := JVal.null, phone_number := JVal.null, address := JVal.null,
    suspended := false }

/-! ### String helpers (Python `in`, `startswith`, `endswith`, `lower`) -/

/-- Does `sub` occur at the start of `s`? (helper for substring search). -/
def listStartsWith : List Char → List Char → Bool
  | [], _ => true
  | _ :: _, [] => false
  | a :: as, b :: bs => a == b && listStartsWith as bs

/-- Does `sub` occur anywhere in `s`? Embeds Python's `sub in s`. -/
def listContainsSub (sub : List Char) : List Char → Bool
  | [] => sub.isEmpty
  | c :: cs => listStartsWith sub (c :: cs) || listContainsSub sub cs

/-- Python `sub in s` on strings. -/
def strContainsSub (s sub : String) : Bool :=
  listContainsSub sub.toList s.toList

/-- ASCII lower-casing of one character (Python `str.lower` restricted to
the ASCII data this service handles). -/
def lowerChar (c : Char) : Char :=
  if 'A' ≤ c && c ≤ 'Z' then Char.ofNat (c.toNat + 32) else c

/-- Python `s.lower()` at the character-list level. -/
def lowerList (l : List Char) : List Char := l.map lowerChar

/-- Python `s.lower()`. -/
def strLower (s : String) : String := ⟨lowerList s.toList⟩

/-! ### The regex patterns of `validate_email_format` / `validate_domain_format`

The source matches against patterns built only from single character
classes and Kleene stars of character classes, anchored at both ends
(`re.match` with a trailing `$`).  We embed exactly that pattern language. -/

/-- One token of the source's regex patterns: a single character from a
class, or zero-or-more characters from a class. -/
inductive RTok where
  | one (p : Char → Bool)
  | star (p : Char → Bool)

/-- All suffixes of `s` reachable by consuming zero or more characters
matching `p` from the front (used to run a Kleene star). -/
def starSuffixes (p : Char → Bool) : List Char → List (List Char)
  | [] => [[]]
  | c :: cs => (c :: cs) :: (if p c then starSuffixes p cs else [])

/-- Full-anchored match of a token list against a character list. -/
def rmatch : List RTok → List Char → Bool
  | [], s => s.isEmpty
  | RTok.one _ :: _, [] => false
  | RTok.one p :: ts, c :: cs => p c && rmatch ts cs
  | RTok.star p :: ts, s => (starSuffixes p s).any fun s2 => rmatch ts s2

/-- `[a-zA-Z0-9]`. -/
def isAlnumAscii (c : Char) : Bool :=
  ('a' ≤ c && c ≤ 'z') || ('A' ≤ c && c ≤ 'Z') || ('0' ≤ c && c ≤ '9')

/-- `[a-zA-Z]`. -/
def isAlphaAscii (c : Char) : Bool :=
  ('a' ≤ c && c ≤ 'z') || ('A' ≤ c && c ≤ 'Z')

/-- `[a-zA-Z0-9._%+-]` (the local-part middle class of the email pattern). -/
def isLocalMid (c : Char) : Bool :=
  isAlnumAscii c || c == '.' || c == '_' || c == '%' || c == '+' || c == '-'

/-- `[a-zA-Z0-9.-]` (the domain middle class). -/
def isDomMid (c : Char) : Bool :=
  isAlnumAscii c || c == '.' || c == '-'

/-- `^[a-zA-Z0-9][a-zA-Z0-9._%+-]*[a-zA-Z0-9]@[a-zA-Z0-9][a-zA-Z0-9.-]*[a-zA-Z0-9]\.[a-zA-Z]{2,}$` -/
def emailPattern : List RTok :=
  [RTok.one isAlnumAscii, RTok.star isLocalMid, RTok.one isAlnumAscii,
   RTok.one (fun c => c == '@'),
   RTok.one isAlnumAscii, RTok.star isDomMid, RTok.one isAlnumAscii,
   RTok.one (fun c => c == '.'),
   RTok.one isAlphaAscii, RTok.one isAlphaAscii, RTok.star isAlphaAscii]

/-- `^[a-zA-Z0-9]@[a-zA-Z0-9]\.[a-zA-Z]{2,}$` (single-character fallback). -/
def simpleEmailPattern : List RTok :=
  [RTok.one isAlnumAscii, RTok.one (fun c => c == '@'), RTok.one isAlnumAscii,
   RTok.one (fun c => c == '.'),
   RTok.one isAlphaAscii, RTok.one isAlphaAscii, RTok.star isAlphaAscii]

/-- `^[a-zA-Z0-9][a-zA-Z0-9.-]*[a-zA-Z0-9]\.[a-zA-Z]{2,}$` -/
def domainPattern : List RTok :=
  [RTok.one isAlnumAscii, RTok.star isDomMid, RTok.one isAlnumAscii,
   RTok.one (fun c => c == '.'),
   RTok.one isAlphaAscii, RTok.one isAlphaAscii, RTok.star isAlphaAscii]

/-- `^[a-zA-Z0-9]\.[a-zA-Z]{2,}$` (simple-domain fallback). -/
def simpleDomainPattern : List RTok :=
  [RTok.one isAlnumAscii, RTok.one (fun c => c == '.'),
   RTok.one isAlphaAscii, RTok.one isAlphaAscii, RTok.star isAlphaAscii]

/-- `Customer.validate_email_format` (`service/models.py`): reject empty,
double dot or embedded space, else match either email pattern. -/
def Customer.validate_email_format (email : String) : Bool :=
  if email == "" || strContainsSub email ".." || strContainsSub email " " then
    false
  else
    rmatch emailPattern email.toList || rmatch simpleEmailPattern email.toList

/-- `Customer.validate_domain_format` (`service/models.py`): reject empty,
double dot, embedded space, leading or trailing dot, else match either
domain pattern. -/
def Customer.validate_domain_format (domain : String) : Bool :=
  if domain == "" || strContainsSub domain ".." || strContainsSub domain " "
      || listStartsWith ['.'] domain.toList
      || listStartsWith ['.'] domain.toList.reverse then
    false
  else
    rmatch domainPattern domain.toList || rmatch simpleDomainPattern domain.toList

/-! ### Serialization and deserialization (`service/models.py`) -/

/-- `Customer.serialize` (`service/models.py`): the exact dictionary the
source builds — keys `id, first_name, last_name, email, phone_number,
address`, in that order, and nothing else. -/
def Customer.serialize (c : Customer) : List (String × JVal) :=
  [("id", match c.id with | some i => JVal.int i | none => JVal.null),
   ("first_name", c.first_name),
   ("last_name", c.last_name),
   ("email", c.email),
   ("phone_number", c.phone_number),
   ("address", c.address)]

/-- The key list of a serialized body. -/
def bodyKeys (body : List (String × JVal)) : List String := body.map (·.1)

/-- `DataValidationError` (`service/models.py`). -/
inductive DataValidationError where
  | mk (msg : String)
  deriving Repr, DecidableEq

/-- Python dictionary lookup `data[k]` / `data.get(k)` on a JSON object. -/
def dictGet (data : List (String × JVal)) (k : String) : Option JVal :=
  (data.find? (fun kv => kv.1 == k)).map (·.2)

/-- `Customer.deserialize` (`service/models.py`): reads `first_name`,
`last_name`, `email` (required — a missing key raises
`DataValidationError("Invalid Customer: missing <key>")`) and
`phone_number`, `address` via `.get` (absent becomes None).  It never
reads `id` or `suspended` from the payload. -/
def Customer.deserialize (self : Customer) (data : List (String × JVal)) :
    Except DataValidationError Customer :=
  match dictGet data "first_name" with
  | none => .error (.mk "Invalid Customer: missing first_name")
  | some fn =>
    match dictGet data "last_name" with
    | none => .error (.mk "Invalid Customer: missing last_name")
    | some ln =>
      match dictGet data "email" with
      | none => .error (.mk "Invalid Customer: missing email")
      | some em =>
        .ok { self with
              first_name := fn, last_name := ln, email := em,
              phone_number := (dictGet data "phone_number").getD JVal.null,
              address := (dictGet data "address").getD JVal.null }

/-! ### The record store

The SQLAlchemy table is embedded as a list of rows plus the sequence value
the autoincrement primary key would assign next. -/

/-- The persisted Customer table. -/
structure Store where
  rows : List Customer
  nextId : Nat
  deriving Repr, DecidableEq

/-- `Customer.find` (`service/models.py`): primary-key lookup. -/
def Store.find (st : Store) (by_id : Nat) : Option Customer :=
  st.rows.find? (fun r => r.id == some by_id)

/-- Row insertion: the primary key is autoincrement, so a row whose `id` is
`None` gets the next sequence value; a row arriving with an explicit id
keeps it. -/
def Store.insert (st : Store) (c : Customer) : Customer × Store :=
  match c.id with
  | some i => ({ c with id := some i },
               { rows := st.rows ++ [{ c with id := some i }],
                 nextId := max st.nextId (i + 1) })
  | none => ({ c with id := some st.nextId },
             { rows := st.rows ++ [{ c with id := some st.nextId }],
               nextId := st.nextId + 1 })

/-- Committing an in-place mutation of the row with id `cid`. -/
def Store.replace (st : Store) (cid : Nat) (c : Customer) : Store :=
  { st with rows := st.rows.map (fun r => if r.id == some cid then c else r) }

/-- Row removal by id (`db.session.delete` + commit). -/
def Store.remove (st : Store) (cid : Nat) : Store :=
  { st with rows := st.rows.filter (fun r => !(r.id == some cid)) }

/-- `Customer.create` (`service/models.py`), successful-commit path as used
by the route handlers: `self.id = None`, then the insert assigns the id. -/
def Customer.create (c : Customer) (st : Store) : Customer × Store :=
  st.insert { c with id := none }

/-! ### SQL `ILIKE` (used by the `last_name` filter) -/

/-- All suffixes of a character list (helper to run a `%` wildcard). -/
def allSuffixes : List Char → List (List Char)
  | [] => [[]]
  | c :: cs => (c :: cs) :: allSuffixes cs

/-- `LIKE`-pattern matching: `%` matches any sequence, `_` any single
character, anything else itself. -/
def likeMatch : List Char → List Char → Bool
  | [], s => s.isEmpty
  | '%' :: ps, s => (allSuffixes s).any fun s2 => likeMatch ps s2
  | '_' :: ps, s => match s with | [] => false | _ :: cs => likeMatch ps cs
  | p :: ps, s => match s with | [] => false | c :: cs => p == c && likeMatch ps cs

/-- `column ILIKE pattern`: case-insensitive `LIKE`; a NULL (or non-string)
column value never matches. -/
def jvalIlike (v : JVal) (pat : String) : Bool :=
  match v with
  | JVal.str t => likeMatch (lowerList pat.toList) (lowerList t.toList)
  | _ => false

/-! ### The List handler's query parameters and filters
(`CustomerCollection.get`, `service/routes.py`) -/

/-- The five optional query parameters read by the List handler
(`request.args.get(...)`: `none` = absent, `some ""` = present but empty). -/
structure ListParams where
  email : Option String
  first_name : Option String
  last_name : Option String
  phone_number : Option String
  suspended : Option String
  deriving Repr, DecidableEq

/-- A List request with no query parameters. -/
def ListParams.noParams : ListParams :=
  { email := none, first_name := none, last_name := none,
    phone_number := none, suspended := none }

/-- `if email: query.filter(Customer.email == email)` — exact,
case-sensitive equality, skipped when the parameter is falsy. -/
def emailFilterKeeps (param : Option String) (c : Customer) : Bool :=
  match param with
  | some e => if e == "" then true else c.email == JVal.str e
  | none => true

/-- `if first_name: query.filter(Customer.first_name == first_name)` —
exact equality (despite the log message announcing a partial,
case-insensitive match). -/
def firstNameFilterKeeps (param : Option String) (c : Customer) : Bool :=
  match param with
  | some f => if f == "" then true else c.first_name == JVal.str f
  | none => true

/-- `if last_name: query.filter(Customer.last_name.ilike(f"%{last_name}%"))`. -/
def lastNameFilterKeeps (param : Option String) (c : Customer) : Bool :=
  match param with
  | some l => if l == "" then true else jvalIlike c.last_name ("%" ++ l ++ "%")
  | none => true

/-- `if phone_number: query.filter(Customer.phone_number == phone_number)`. -/
def phoneFilterKeeps (param : Option String) (c : Customer) : Bool :=
  match param with
  | some p => if p == "" then true else c.phone_number == JVal.str p
  | none => true

/-- `suspended.lower() in ("true", "1", "yes")`. -/
def suspendedCoerce (s : String) : Bool :=
  strLower s == "true" || strLower s == "1" || strLower s == "yes"

/-- `if suspended is not None: query.filter(Customer.suspended ==
suspended_bool)` — note `is not None`, so the filter also applies when the
parameter is the empty string. -/
def suspendedFilterKeeps (param : Option String) (c : Customer) : Bool :=
  match param with
  | some s => c.suspended == suspendedCoerce s
  | none => true

/-- The conjunction of the five sequentially applied query filters. -/
def matchesFilters (p : ListParams) (c : Customer) : Bool :=
  emailFilterKeeps p.email c && firstNameFilterKeeps p.first_name c &&
  lastNameFilterKeeps p.last_name c && phoneFilterKeeps p.phone_number c &&
  suspendedFilterKeeps p.suspended c

/-! ### Route handlers (`service/routes.py`), successful-commit semantics -/

/-- `CustomerCollection.get` (List): always 200 with the serialized rows
surviving every provided filter. -/
def listCustomers (p : ListParams) (st : Store) :
    Nat × List (List (String × JVal)) :=
  (200, (st.rows.filter (matchesFilters p)).map Customer.serialize)

/-- `CustomerResource.get` (Get): 404 when the id is absent, else 200 with
the serialized row. -/
def getCustomer (cid : Nat) (st : Store) :
    Nat × Option (List (String × JVal)) :=
  match st.find cid with
  | none => (404, none)
  | some c => (200, some c.serialize)

/-- `CustomerCollection.post` (Create): deserialize into a fresh object,
store it (the store assigns the id), answer 201 with the serialized row and
a Location header pointing at the assigned id.  A `DataValidationError`
from `deserialize` propagates (the service surfaces it as a 400). -/
def postCustomer (data : List (String × JVal)) (st : Store) :
    Except DataValidationError (Nat × List (String × JVal) × Nat × Store) :=
  match Customer.empty.deserialize data with
  | .error e => .error e
  | .ok c =>
    let (c2, st2) := c.create st
    .ok (201, c2.serialize, c2.id.getD 0, st2)

/-- `CustomerResource.put` (Update): 404 when absent, else deserialize into
the found row (its id is untouched) and commit. -/
def putCustomer (cid : Nat) (data : List (String × JVal)) (st : Store) :
    Except DataValidationError (Nat × Option (List (String × JVal)) × Store) :=
  match st.find cid with
  | none => .ok (404, none, st)
  | some c =>
    match c.deserialize data with
    | .error e => .error e
    | .ok c2 => .ok (200, some c2.serialize, st.replace cid c2)

/-- `CustomerResource.delete` (Delete): remove the row when it exists,
answer 204 with an empty body either way. -/
def deleteCustomer (cid : Nat) (st : Store) : Nat × String × Store :=
  match st.find cid with
  | none => (204, "", st)
  | some _ => (204, "", st.remove cid)

/-- `CustomerSuspendResource.put` (Suspend): 404 when absent, else set
`suspended := true`, commit, answer 200 with the serialized row. -/
def suspendCustomer (cid : Nat) (st : Store) :
    Nat × Option (List (String × JVal)) × Store :=
  match st.find cid with
  | none => (404, none, st)
  | some c =>
    let c2 := { c with suspended := true }
    (200, some c2.serialize, st.replace cid c2)

/-- `CustomerActivateResource.put` (Activate): 404 when absent, else set
`suspended := false`, commit, answer 200 with the serialized row. -/
def activateCustomer (cid : Nat) (st : Store) :
    Nat × Option (List (String × JVal)) × Store :=
  match st.find cid with
  | none => (404, none, st)
  | some c =>
    let c2 := { c with suspended := false }
    (200, some c2.serialize, st.replace cid c2)

/-! ### Commit failure and rollback (`service/models.py`)

`create` / `update` / `delete` each run `db.session.commit()` inside
`try ... except`: an exception rolls the session back and re-raises as
`DataValidationError`.  The session is modelled as a committed store plus a
working copy holding the uncommitted changes; whether the commit succeeds
is an external event. -/

/-- An SQLAlchemy session: the committed table state plus the working state
including staged (uncommitted) changes. -/
structure DBSession where
  committed : Store
  working : Store
  deriving Repr, DecidableEq

/-- Whether `db.session.commit()` succeeds or raises (external event). -/
inductive CommitOutcome where
  | ok
  | fail
  deriving Repr, DecidableEq

/-- `db.session.add(self)` (+ flush): stage an insert. -/
def DBSession.add (s : DBSession) (c : Customer) : Customer × DBSession :=
  let (c2, st2) := s.working.insert c
  (c2, { s with working := st2 })

/-- `db.session.delete(self)`: stage a removal. -/
def DBSession.deleteRow (s : DBSession) (cid : Nat) : DBSession :=
  { s with working := s.working.remove cid }

/-- `db.session.commit()`: on success the working state becomes committed;
on failure an exception is raised and nothing is persisted. -/
def DBSession.commit (s : DBSession) (o : CommitOutcome) :
    Except Unit DBSession :=
  match o with
  | .ok => .ok { committed := s.working, working := s.working }
  | .fail => .error ()

/-- `db.session.rollback()`: discard all uncommitted changes. -/
def DBSession.rollback (s : DBSession) : DBSession :=
  { committed := s.committed, working := s.committed }

/-- `Customer.create` (`service/models.py`) with explicit commit outcome:
`self.id = None`; `session.add`; `commit`; on exception `rollback` and
raise `DataValidationError`. -/
def Customer.createOp (c : Customer) (s : DBSession) (o : CommitOutcome) :
    Option DataValidationError × DBSession :=
  let s1 := (s.add { c with id := none }).2
  match s1.commit o with
  | .ok s2 => (none, s2)
  | .error _ => (some (.mk "Error creating record"), s1.rollback)

/-- `Customer.update` (`service/models.py`) with explicit commit outcome:
the working state already carries the in-place mutation; `commit`; on
exception `rollback` and raise `DataValidationError`. -/
def Customer.updateOp (s : DBSession) (o : CommitOutcome) :
    Option DataValidationError × DBSession :=
  match s.commit o with
  | .ok s2 => (none, s2)
  | .error _ => (some (.mk "Error updating record"), s.rollback)

/-- `Customer.delete` (`service/models.py`) with explicit commit outcome:
`session.delete`; `commit`; on exception `rollback` and raise
`DataValidationError`. -/
def Customer.deleteOp (cid : Nat) (s : DBSession) (o : CommitOutcome) :
    Option DataValidationError × DBSession :=
  let s1 := s.deleteRow cid
  match s1.commit o with
  | .ok s2 => (none, s2)
  | .error _ => (some (.mk "Error deleting record"), s1.rollback)

/-- Consistency of the two levels: on a successful commit, `createOp`
persists exactly what the route-level `Customer.create` produces. -/
theorem createOp_ok_committed (c : Customer) (st : Store) :
    (Customer.createOp c { committed := st, working := st } .ok).2.committed
      = (c.create st).2 := rfl

/-- Equality of `Except` results is decidable when it is on both sides. -/
instance {ε α : Type} [DecidableEq ε] [DecidableEq α] :
    DecidableEq (Except ε α) := fun a b =>
  match a, b with
  | .ok x, .ok y =>
    if h : x = y then isTrue (by rw [h]) else isFalse (by simp [h])
  | .error x, .error y =>
    if h : x = y then isTrue (by rw [h]) else isFalse (by simp [h])
  | .ok _, .error _ => isFalse (by simp)
  | .error _, .ok _ => isFalse (by simp)

/-! ### Concrete sample data for counterexamples and witnesses -/

/-- A stored customer, id 1, not suspended. -/
def janeRow : Customer :=
  { id := some 1, first_name := JVal.str "Jane", last_name := JVal.str "Doe",
    email := JVal.str "jane@ab.com", phone_number := JVal.str "555-1234",
    address := JVal.str "1 Main St", suspended := false }

/-- `janeRow` after Suspend. -/
def suspendedJane : Customer := { janeRow with suspended := true }

/-- A store holding only `janeRow`. -/
def store1 : Store := { rows := [janeRow], nextId := 2 }

/-- A store holding only the suspended `janeRow`. -/
def storeSusp : Store := { rows := [suspendedJane], nextId := 2 }

/-- An empty store whose next assigned id is 1. -/
def emptyStore : Store := { rows := [], nextId := 1 }

/-- A valid Create payload (the spec's scenario record). -/
def createData : List (String × JVal) :=
  [("first_name", JVal.str "Jane"), ("last_name", JVal.str "Doe"),
   ("email", JVal.str "jane@x.com")]

/-- The row Create stores for `createData` on `emptyStore`. -/
def createdJane : Customer :=
  { id := some 1, first_name := JVal.str "Jane", last_name := JVal.str "Doe",
    email := JVal.str "jane@x.com", phone_number := JVal.null,
    address := JVal.null, suspended := false }

/-- `Customer.empty` after deserializing `createData` (no id assigned yet). -/
def deserializedJane : Customer := { createdJane with id := none }

/-- An Update payload that also smuggles in an `id` key. -/
def updData : List (String × JVal) :=
  [("first_name", JVal.str "Janet"), ("last_name", JVal.str "Doe"),
   ("email", JVal.str "janet@ab.com"), ("id", JVal.int 42)]

/-- `janeRow` after applying `updData` (id untouched by the payload). -/
def updatedJane : Customer :=
  { id := some 1, first_name := JVal.str "Janet", last_name := JVal.str "Doe",
    email := JVal.str "janet@ab.com", phone_number := JVal.null,
    address := JVal.null, suspended := false }

/-- `store1` after that update. -/
def updatedStore : Store := { rows := [updatedJane], nextId := 2 }

/-! ## Claim theorems -/

/-- C1: the claim says every serialized record carries exactly
`id, first_name, last_name, email, phone_number, address, suspended` with
`suspended` always a boolean.  The code's `Customer.serialize` emits only
the first six keys and omits `suspended` entirely (the response model then
renders it as null, not a boolean), contradicting the service's own tests,
which assert a boolean `suspended` in every response. -/
theorem C1_serialize_omits_suspended (c : Customer) :
    bodyKeys c.serialize =
      ["id", "first_name", "last_name", "email", "phone_number", "address"] ∧
    (bodyKeys c.serialize).contains "suspended" = false := by
  exact ⟨rfl, rfl⟩

/-- C4: the claim says the `first_name` filter matches by case-insensitive
substring containment.  The handler filters with exact equality
(`Customer.first_name == first_name`): the query `first_name=jan` finds
nothing although "jan" is a case-insensitive substring of "Jane" (second
conjunct), while the exact name does match; the `last_name` half does
behave as claimed (case-insensitive substring via `ILIKE`). -/
theorem C4_first_name_exact_not_substring :
    listCustomers { ListParams.noParams with first_name := some "jan" } store1
      = (200, []) ∧
    jvalIlike janeRow.first_name "%jan%" = true ∧
    listCustomers { ListParams.noParams with first_name := some "Jane" } store1
      = (200, [janeRow.serialize]) ∧
    listCustomers { ListParams.noParams with last_name := some "oE" } store1
      = (200, [janeRow.serialize]) := by decide

/-- C5: for the valid Create payload `createData`, the response is 201 with
a Location pointing at the assigned id 1, the immediate Get returns 200
with identical field values, and the stored row is not suspended — but the
serialized body contains no `suspended` key at all (hence not
`suspended=false`), which is the failing part of the claim. -/
theorem C5_create_get_roundtrip_missing_suspended :
    postCustomer createData emptyStore =
      .ok (201, createdJane.serialize, 1, { rows := [createdJane], nextId := 2 }) ∧
    getCustomer 1 { rows := [createdJane], nextId := 2 } =
      (200, some createdJane.serialize) ∧
    dictGet createdJane.serialize "first_name" = dictGet createData "first_name" ∧
    dictGet createdJane.serialize "last_name" = dictGet createData "last_name" ∧
    dictGet createdJane.serialize "email" = dictGet createData "email" ∧
    createdJane.suspended = false ∧
    (bodyKeys createdJane.serialize).contains "suspended" = false := by decide

/-- C6: Suspend/Activate flip the in-memory `suspended` flag exactly as the
claim's state transitions describe (suspend sets true, activate sets false,
both idempotent), but the 200 response body never contains a `suspended`
key because `serialize` omits it — so "returns 200 with suspended=true"
fails on the body. -/
theorem C6_suspend_activate_body_missing_suspended :
    suspendCustomer 1 store1 = (200, some suspendedJane.serialize, storeSusp) ∧
    (bodyKeys suspendedJane.serialize).contains "suspended" = false ∧
    suspendCustomer 1 storeSusp = (200, some suspendedJane.serialize, storeSusp) ∧
    activateCustomer 1 storeSusp = (200, some janeRow.serialize, store1) ∧
    activateCustomer 1 store1 = (200, some janeRow.serialize, store1) ∧
    (storeSusp.find 1).map Customer.suspended = some true ∧
    (store1.find 1).map Customer.suspended = some false :=
  ⟨by decide, by decide, by decide, by decide, by decide, by decide, by decide⟩

/-- C7: Delete answers 204 with an empty body for every id on every store —
present or absent — and doing it twice answers 204 both times. -/
theorem C7_delete_always_204 (cid : Nat) (st : Store) :
    (deleteCustomer cid st).1 = 204 ∧ (deleteCustomer cid st).2.1 = "" ∧
    (deleteCustomer cid (deleteCustomer cid st).2.2).1 = 204 ∧
    (deleteCustomer cid (deleteCustomer cid st).2.2).2.1 = "" := by
  have h : ∀ (c : Nat) (s : Store),
      (deleteCustomer c s).1 = 204 ∧ (deleteCustomer c s).2.1 = "" := by
    intro c s
    unfold deleteCustomer
    cases s.find c <;> simp
  exact ⟨(h cid st).1, (h cid st).2, (h cid _).1, (h cid _).2⟩

/-- C8: the four specified validator evaluations hold, and in general
`validate_email_format` rejects every string that is empty, contains two
consecutive dots, or contains a space, while `validate_domain_format`
additionally rejects every string starting or ending with a dot. -/
theorem C8_validator_contract :
    Customer.validate_email_format "a..b@example.com" = false ∧
    Customer.validate_email_format "a@b.co" = true ∧
    Customer.validate_domain_format ".example.com" = false ∧
    Customer.validate_domain_format "a.co" = true ∧
    (∀ s : String,
      (s = "" ∨ strContainsSub s ".." = true ∨ strContainsSub s " " = true) →
      Customer.validate_email_format s = false) ∧
    (∀ s : String,
      (s = "" ∨ strContainsSub s ".." = true ∨ strContainsSub s " " = true ∨
        listStartsWith ['.'] s.toList = true ∨
        listStartsWith ['.'] s.toList.reverse = true) →
      Customer.validate_domain_format s = false) := by
  refine ⟨by decide, by decide, by decide, by decide, ?_, ?_⟩
  · intro s h
    unfold Customer.validate_email_format
    rcases h with h | h | h
    · subst h; rfl
    · simp [h]
    · simp [h]
  · intro s h
    unfold Customer.validate_domain_format
    rcases h with h | h | h | h | h
    · subst h; rfl
    · simp [h]
    · simp [h]
    · simp only [String.toList] at h
      simp [h]
    · simp only [String.toList] at h
      simp [h]

/-- Witness for C8: the general rejection clauses applied at concrete
inputs — an email with a space and a domain with a leading dot. -/
theorem C8_validator_contract_witness :
    (strContainsSub "a b@cd.co" " " = true ∧
      Customer.validate_email_format "a b@cd.co" = false) ∧
    (listStartsWith ['.'] ".x.co".toList = true ∧
      Customer.validate_domain_format ".x.co" = false) :=
  ⟨⟨by decide, C8_validator_contract.2.2.2.2.1 "a b@cd.co"
      (Or.inr (Or.inr (by decide)))⟩,
   ⟨by decide, C8_validator_contract.2.2.2.2.2 ".x.co"
      (Or.inr (Or.inr (Or.inr (Or.inl (by decide)))))⟩⟩

/-- C9: when `db.session.commit()` raises during create, update, or
delete, the operation rolls the session back and raises
`DataValidationError`: the committed store is unchanged, and the working
state is reset to it (atomicity). -/
theorem C9_commit_failure_atomic (c : Customer) (s : DBSession) (cid : Nat) :
    (Customer.createOp c s .fail).1 =
      some (.mk "Error creating record") ∧
    (Customer.createOp c s .fail).2.committed = s.committed ∧
    (Customer.createOp c s .fail).2.working = s.committed ∧
    (Customer.updateOp s .fail).1 = some (.mk "Error updating record") ∧
    (Customer.updateOp s .fail).2.committed = s.committed ∧
    (Customer.updateOp s .fail).2.working = s.committed ∧
    (Customer.deleteOp cid s .fail).1 =
      some (.mk "Error deleting record") ∧
    (Customer.deleteOp cid s .fail).2.committed = s.committed ∧
    (Customer.deleteOp cid s .fail).2.working = s.committed :=
  ⟨rfl, rfl, rfl, rfl, rfl, rfl, rfl, rfl, rfl⟩

/-- C2 counterexample: the claim says an empty `suspended` parameter means
"parameter absent, do not filter", but the handler checks `is not None`, so
`suspended=` (empty string) coerces to `false` and filters out a suspended
record that the unfiltered List does return. -/
theorem C2_empty_suspended_param_filters :
    listCustomers { ListParams.noParams with suspended := some "" } storeSusp
      = (200, []) ∧
    listCustomers ListParams.noParams storeSusp
      = (200, [suspendedJane.serialize]) := ⟨by decide, by decide⟩

/-- C2 (amended): whenever the `suspended` parameter is present — including
as the empty string — it is coerced to a boolean (`true` iff the lowercased
value is `"true"`, `"1"` or `"yes"`; the empty string coerces to `false`)
and the result is exactly the records with that `suspended` value, AND-ed
with the other filters; only an absent parameter applies no filter, and the
handler always answers 200. -/
theorem C2_suspended_filter_amended :
    (∀ (p : ListParams) (s : String) (st : Store) (b : List (String × JVal)),
      b ∈ (listCustomers { p with suspended := some s } st).2 ↔
        ∃ c, c ∈ st.rows ∧
          (emailFilterKeeps p.email c && firstNameFilterKeeps p.first_name c &&
           lastNameFilterKeeps p.last_name c &&
           phoneFilterKeeps p.phone_number c) = true ∧
          c.suspended = suspendedCoerce s ∧ b = c.serialize) ∧
    (∀ (p : ListParams) (st : Store),
      (listCustomers { p with suspended := none } st).2 =
        (st.rows.filter fun c =>
           emailFilterKeeps p.email c && firstNameFilterKeeps p.first_name c &&
           lastNameFilterKeeps p.last_name c &&
           phoneFilterKeeps p.phone_number c).map Customer.serialize) ∧
    (∀ s : String, suspendedCoerce s = true ↔
      (strLower s = "true" ∨ strLower s = "1" ∨ strLower s = "yes")) ∧
    suspendedCoerce "" = false ∧
    (∀ (p : ListParams) (st : Store), (listCustomers p st).1 = 200) := by
  refine ⟨?_, ?_, ?_, by decide, fun p st => rfl⟩
  · intro p s st b
    simp only [listCustomers, List.mem_map, List.mem_filter, matchesFilters,
      suspendedFilterKeeps, Bool.and_eq_true, beq_iff_eq]
    tauto
  · intro p st
    simp only [listCustomers]
    rw [List.filter_congr]
    intro c _
    simp [matchesFilters, suspendedFilterKeeps]
  · intro s
    simp only [suspendedCoerce, Bool.or_eq_true, beq_iff_eq]
    tauto

/-- C3 counterexample: the claim says `email=bad-email` (which fails
`validate_email_format`) must yield a 400 BadRequest.  The List handler
performs no email validation: the request succeeds with 200 and an exact
equality filter (empty result here; a matching email does match). -/
theorem C3_invalid_email_still_200 :
    Customer.validate_email_format "bad-email" = false ∧
    listCustomers { ListParams.noParams with email := some "bad-email" } store1
      = (200, []) ∧
    listCustomers { ListParams.noParams with email := some "jane@ab.com" } store1
      = (200, [janeRow.serialize]) := ⟨by decide, by decide, by decide⟩

/-- C3 (amended): for every List request with a present, non-empty `email`
parameter, no format validation happens — the request always succeeds with
200 and the result is exactly the records whose email equals the value by
exact, case-sensitive string equality, AND-ed with the other filters. -/
theorem C3_email_exact_match_no_validation (p : ListParams) (e : String)
    (st : Store) (b : List (String × JVal)) (he : e ≠ "") :
    (listCustomers { p with email := some e } st).1 = 200 ∧
    (b ∈ (listCustomers { p with email := some e } st).2 ↔
      ∃ c, c ∈ st.rows ∧ c.email = JVal.str e ∧
        (firstNameFilterKeeps p.first_name c &&
         lastNameFilterKeeps p.last_name c &&
         phoneFilterKeeps p.phone_number c &&
         suspendedFilterKeeps p.suspended c) = true ∧
        b = c.serialize) := by
  have he2 : (e == "") = false := by
    simpa using he
  refine ⟨rfl, ?_⟩
  simp only [listCustomers, List.mem_map, List.mem_filter, matchesFilters,
    emailFilterKeeps, he2, Bool.false_eq_true, if_false, Bool.and_eq_true,
    beq_iff_eq]
  tauto

/-- Witness for C3's amended theorem at the spec's own scenario input
`email=bad-email`. -/
theorem C3_email_exact_match_witness :
    (listCustomers { ListParams.noParams with email := some "bad-email" }
        store1).1 = 200 :=
  (C3_email_exact_match_no_validation ListParams.noParams "bad-email" store1
    [] (by decide)).1

/-- `deserialize` never touches `id`: a successful deserialization keeps
the receiving object's id. -/
theorem deserialize_ok_id (self : Customer) (data : List (String × JVal))
    (r : Customer) (h : self.deserialize data = .ok r) : r.id = self.id := by
  unfold Customer.deserialize at h
  cases hf : dictGet data "first_name" with
  | none => rw [hf] at h; exact Except.noConfusion h
  | some fn =>
    rw [hf] at h
    cases hl : dictGet data "last_name" with
    | none => rw [hl] at h; exact Except.noConfusion h
    | some ln =>
      rw [hl] at h
      cases he : dictGet data "email" with
      | none => rw [he] at h; exact Except.noConfusion h
      | some em =>
        rw [he] at h
        cases h
        rfl

/-- `deserialize` never reads the `"id"` key: prepending one to the
payload changes nothing. -/
theorem deserialize_cons_id (self : Customer) (v : JVal)
    (data : List (String × JVal)) :
    self.deserialize (("id", v) :: data) = self.deserialize data := rfl

/-- Replacing the row keyed `cid` by a row whose id is `some cid` leaves
the stored id column unchanged everywhere. -/
theorem map_id_replace (l : List Customer) (cid : Nat) (c2 : Customer)
    (h : c2.id = some cid) :
    ((l.map fun r => if r.id == some cid then c2 else r).map Customer.id)
      = l.map Customer.id := by
  rw [List.map_map]
  apply List.map_congr_left
  intro a _
  by_cases ha : (a.id == some cid) = true
  · have ha2 : a.id = some cid := by simpa using ha
    simp [Function.comp, ha, h, ha2]
  · simp [Function.comp, ha]

/-- A successful Update leaves every stored id unchanged. -/
theorem putCustomer_ok_ids (cid : Nat) (data : List (String × JVal))
    (st : Store) (res : Nat × Option (List (String × JVal)) × Store)
    (h : putCustomer cid data st = .ok res) :
    res.2.2.rows.map Customer.id = st.rows.map Customer.id := by
  unfold putCustomer at h
  split at h
  · cases h; rfl
  · rename_i c hfind
    split at h
    · exact Except.noConfusion h
    · rename_i c2 hdes
      cases h
      have hfind2 : st.rows.find? (fun r => r.id == some cid) = some c := by
        simpa [Store.find] using hfind
      have hcid : c.id = some cid := by
        have hp := List.find?_some hfind2
        simpa using hp
      have h2 : c2.id = some cid := (deserialize_ok_id c data c2 hdes).trans hcid
      exact map_id_replace st.rows cid c2 h2

/-- C10: the payload's `"id"` key is ignored everywhere — `deserialize`
never reads it (prepending one changes nothing) and preserves the
receiving object's id; Create resets the id to None so the store assigns
`nextId` no matter what id the object carried; and a successful Update
leaves every stored id unchanged. -/
theorem C10_payload_id_ignored :
    (∀ (self : Customer) (data : List (String × JVal)) (r : Customer),
        self.deserialize data = .ok r → r.id = self.id) ∧
    (∀ (self : Customer) (v : JVal) (data : List (String × JVal)),
        self.deserialize (("id", v) :: data) = self.deserialize data) ∧
    (∀ (c : Customer) (st : Store), (c.create st).1.id = some st.nextId) ∧
    (∀ (cid : Nat) (data : List (String × JVal)) (st : Store)
        (res : Nat × Option (List (String × JVal)) × Store),
        putCustomer cid data st = .ok res →
        res.2.2.rows.map Customer.id = st.rows.map Customer.id) :=
  ⟨deserialize_ok_id, deserialize_cons_id, fun _ _ => rfl, putCustomer_ok_ids⟩

/-- Witness for C10 at concrete inputs: deserializing the Create payload
keeps the fresh object's id, and an Update whose payload smuggles in
`"id": 42` still leaves the stored ids untouched. -/
theorem C10_payload_id_ignored_witness :
    (Customer.empty.deserialize createData = .ok deserializedJane ∧
      deserializedJane.id = Customer.empty.id) ∧
    (putCustomer 1 updData store1 =
        .ok (200, some updatedJane.serialize, updatedStore) ∧
      updatedStore.rows.map Customer.id = store1.rows.map Customer.id) :=
  ⟨⟨by decide,
    C10_payload_id_ignored.1 Customer.empty createData deserializedJane
      (by decide)⟩,
   ⟨by decide,
    C10_payload_id_ignored.2.2.2 1 updData store1
      (200, some updatedJane.serialize, updatedStore) (by decide)⟩⟩

/-- Witness for C1 at a concrete stored customer. -/
theorem C1_serialize_omits_suspended_witness :
    bodyKeys janeRow.serialize =
      ["id", "first_name", "last_name", "email", "phone_number", "address"] ∧
    (bodyKeys janeRow.serialize).contains "suspended" = false :=
  C1_serialize_omits_suspended janeRow

/-- Witness for C2's amended theorem: `suspended=true` does return the
suspended record. -/
theorem C2_suspended_filter_amended_witness :
    suspendedJane.serialize ∈
      (listCustomers { ListParams.noParams with suspended := some "true" }
        storeSusp).2 :=
  (C2_suspended_filter_amended.1 ListParams.noParams "true" storeSusp
      suspendedJane.serialize).mpr
    ⟨suspendedJane, by decide, by decide, by decide, rfl⟩

/-- Witness for C7 at a concrete id and store. -/
theorem C7_delete_always_204_witness :
    (deleteCustomer 1 store1).1 = 204 ∧ (deleteCustomer 1 store1).2.1 = "" ∧
    (deleteCustomer 1 (deleteCustomer 1 store1).2.2).1 = 204 ∧
    (deleteCustomer 1 (deleteCustomer 1 store1).2.2).2.1 = "" :=
  C7_delete_always_204 1 store1

/-- Witness for C9: a failed create commit leaves the committed store
untouched. -/
theorem C9_commit_failure_atomic_witness :
    (Customer.createOp janeRow { committed := store1, working := store1 }
        .fail).2.committed = store1 :=
  (C9_commit_failure_atomic janeRow
    { committed := store1, working := store1 } 1).2.1
